import Mathlib

/-!
Shallow embedding of `server.js` from the ipa-resign-app repository: an
Express server that accepts multipart uploads (ipa, certificate,
provisioning profile), builds a command line for the external `zsign`
tool, executes it, cleans up the uploaded files, and serves/lists/deletes
the produced artifacts.  Pure request/response logic is modelled as Lean
functions; the filesystem is modelled as an explicit state value; the
external tool's run is modelled by its observable outcome (`ExecResult`).
-/

namespace IpaResign

/-- JavaScript truthiness of an optional string field of `req.body`:
`undefined` and the empty string are falsy, every other string truthy. -/
def jsTruthy : Option String → Bool
  | none => false
  | some s => s ≠ ""

/-- `path.basename`: the part of the path after the last slash. -/
def basename (p : String) : String :=
  String.mk ((p.data.reverse.takeWhile (fun c => c ≠ '/')).reverse)

/-- `path.dirname`: the part of the path before the last slash
(`"."` when there is no slash). -/
def dirname (p : String) : String :=
  match p.data.reverse.dropWhile (fun c => c ≠ '/') with
  | [] => "."
  | _ :: rest => String.mk rest.reverse

/-- `path.parse(p).name`: the basename with its last extension removed;
a leading dot of the basename does not start an extension (dotfile rule). -/
def parseName (p : String) : String :=
  match (basename p).data.reverse.dropWhile (fun c => c ≠ '.') with
  | [] => basename p
  | _ :: [] => basename p
  | _ :: rest => String.mk rest.reverse

/-- Characters that JavaScript `encodeURIComponent` leaves unescaped:
`A–Z a-z 0-9 - _ . ! ~ * ' ( )`. -/
def isUnreservedURI (c : Char) : Bool :=
  ('A' ≤ c && c ≤ 'Z') || ('a' ≤ c && c ≤ 'z') || ('0' ≤ c && c ≤ '9') ||
  c = '-' || c = '_' || c = '.' || c = '!' || c = '~' || c = '*' ||
  c = Char.ofNat 39 || c = '(' || c = ')'

/-- Uppercase hexadecimal digit for `n < 16`. -/
def hexDigitChar (n : Nat) : Char :=
  if n < 10 then Char.ofNat (48 + n) else Char.ofNat (55 + n)

/-- Percent-encoding of one byte, e.g. `47 ↦ "%2F"`. -/
def percentByte (b : Nat) : List Char :=
  ['%', hexDigitChar (b / 16), hexDigitChar (b % 16)]

/-- The UTF-8 bytes of a Unicode code point. -/
def utf8Bytes (n : Nat) : List Nat :=
  if n < 128 then [n]
  else if n < 2048 then [192 + n / 64, 128 + n % 64]
  else if n < 65536 then [224 + n / 4096, 128 + (n / 64) % 64, 128 + n % 64]
  else [240 + n / 262144, 128 + (n / 4096) % 64, 128 + (n / 64) % 64, 128 + n % 64]

/-- Concatenate the images of `f` over a list. -/
def flatMapChars {α : Type} (f : α → List Char) : List α → List Char
  | [] => []
  | c :: cs => f c ++ flatMapChars f cs

/-- JavaScript `encodeURIComponent`: unreserved characters are kept,
every other character is replaced by the percent-encoding of its UTF-8
bytes. -/
def encodeURIComponent (s : String) : String :=
  String.mk (flatMapChars
    (fun c => if isUnreservedURI c then [c] else flatMapChars percentByte (utf8Bytes c.toNat))
    s.data)

/-- Number of (possibly overlapping) occurrences of `pat` in `l`. -/
def countSub (pat : List Char) : List Char → Nat
  | [] => if pat.isPrefixOf ([] : List Char) then 1 else 0
  | c :: rest => (if pat.isPrefixOf (c :: rest) then 1 else 0) + countSub pat rest

/-! ## Filesystem model -/

/-- A regular file: its absolute path and its byte size. -/
structure FSFile where
  path : String
  size : Nat
deriving DecidableEq

/-- Filesystem state: the regular files and the directories that exist. -/
structure FS where
  files : List FSFile
  dirs : List String
deriving DecidableEq

/-- A regular file exists at path `p`. -/
def existsFile (fs : FS) (p : String) : Bool :=
  fs.files.any (fun f => f.path = p)

/-- A directory exists at path `p`. -/
def existsDir (fs : FS) (p : String) : Bool :=
  fs.dirs.any (fun d => d = p)

/-- `fs.existsSync(p)`: something exists at path `p`. -/
def existsSync (fs : FS) (p : String) : Bool :=
  existsFile fs p || existsDir fs p

/-- `fs.unlinkSync(p)`: remove the regular file at path `p`. -/
def unlinkFile (fs : FS) (p : String) : FS :=
  { fs with files := fs.files.filter (fun f => f.path ≠ p) }

/-- `p` lies strictly below directory `d`. -/
def isUnder (d p : String) : Bool :=
  List.isPrefixOf (d ++ "/").data p.data

/-- `fs.rmSync(d, {recursive: true, force: true})`: remove `d` and
everything below it. -/
def rmRecursive (fs : FS) (d : String) : FS :=
  { files := fs.files.filter (fun f => !(f.path = d || isUnder d f.path)),
    dirs := fs.dirs.filter (fun x => !(x = d || isUnder d x)) }

/-- `fs.statSync(p).size` for a regular file (0 when absent). -/
def statSize (fs : FS) (p : String) : Nat :=
  ((fs.files.find? (fun f => f.path = p)).map (fun f => f.size)).getD 0

/-! ## Server configuration, requests and responses -/

/-- Server configuration derived from the environment. -/
structure Env where
  domain : String
  zsignPath : String
  outputDir : String
deriving DecidableEq

/-- One uploaded file as multer stores it: original client name and the
path where it was persisted (inside the session directory). -/
structure UploadedFile where
  originalname : String
  path : String
deriving DecidableEq

/-- The `req.files` object of a sign request: each field is present iff a
file of that kind was uploaded. -/
structure SignFiles where
  ipa : Option UploadedFile
  certificate : Option UploadedFile
  provision : Option UploadedFile
deriving DecidableEq

/-- A parsed `POST /api/sign` request: `req.files` (absent if multer put
nothing there) and the optional `password` / `bundleId` body fields. -/
structure SignRequest where
  files : Option SignFiles
  password : Option String
  bundleId : Option String
deriving DecidableEq

/-- Observable outcome of `exec`: `error` is `some message` exactly when
the child process failed (nonzero exit), plus the captured streams. -/
structure ExecResult where
  error : Option String
  stdout : String
  stderr : String
deriving DecidableEq

/-- The `data` object of a successful sign response. -/
structure SignData where
  fileName : String
  downloadUrl : String
  installUrl : String
  size : Nat
deriving DecidableEq

/-- A JSON response together with its HTTP status. -/
structure Response where
  status : Nat
  success : Bool
  error : Option String := none
  message : Option String := none
  details : Option String := none
  data : Option SignData := none
deriving DecidableEq

/-- Everything the sign handler computes before calling `exec`. -/
structure SignJob where
  cmd : String
  outputFileName : String
  outputPath : String
  ipaPath : String
  certPath : String
  provPath : String
deriving DecidableEq

/-! ## POST /api/sign -/

/-- The 400 response for a request missing one of the three files. -/
def missingFilesResp : Response :=
  { status := 400, success := false,
    error := some "Missing required files. Please upload IPA, P12 certificate, and provisioning profile." }

/-- The zsign command string, built exactly as `server.js` lines 97–110
build it (template literals put double quotes around each value). -/
def buildZsignCmd (zsignPath certPath : String) (password : Option String)
    (provPath : String) (bundleId : Option String) (outputPath ipaPath : String) : String :=
  let cmd := zsignPath ++ " -k \"" ++ certPath ++ "\""
  let cmd := if jsTruthy password then cmd ++ " -p \"" ++ password.getD "" ++ "\"" else cmd
  let cmd := cmd ++ " -m \"" ++ provPath ++ "\""
  let cmd := if jsTruthy bundleId then cmd ++ " -b \"" ++ bundleId.getD "" ++ "\"" else cmd
  cmd ++ " -o \"" ++ outputPath ++ "\" \"" ++ ipaPath ++ "\""

/-- The sign handler up to (and excluding) the `exec` call: validate the
three uploaded files, derive the output name/path, build the command.
`.error r` means the handler responds `r` without ever invoking the
external tool; `.ok job` means `exec job.cmd` is invoked next. -/
def signPrepare (env : Env) (req : SignRequest) (now : Nat) : Except Response SignJob :=
  match req.files with
  | none => .error missingFilesResp
  | some fls =>
    match fls.ipa, fls.certificate, fls.provision with
    | some ipaFile, some certFile, some provisionFile =>
      let outputFileName := parseName ipaFile.originalname ++ "_signed_" ++ toString now ++ ".ipa"
      let outputPath := env.outputDir ++ "/" ++ outputFileName
      .ok { cmd := buildZsignCmd env.zsignPath certFile.path req.password
                     provisionFile.path req.bundleId outputPath ipaFile.path,
            outputFileName := outputFileName,
            outputPath := outputPath,
            ipaPath := ipaFile.path,
            certPath := certFile.path,
            provPath := provisionFile.path }
    | _, _, _ => .error missingFilesResp

/-- One iteration of the cleanup loop: `if (fs.existsSync(file))
fs.unlinkSync(file)`. -/
def cleanupOne (fs : FS) (p : String) : FS :=
  if existsSync fs p then unlinkFile fs p else fs

/-- The cleanup block of the `exec` callback: unlink the three uploaded
files, then recursively remove the session directory (the directory of
the uploaded ipa). -/
def signCleanup (job : SignJob) (fs : FS) : FS :=
  let fs1 := [job.ipaPath, job.certPath, job.provPath].foldl cleanupOne fs
  let sessionDir := dirname job.ipaPath
  if existsSync fs1 sessionDir then rmRecursive fs1 sessionDir else fs1

/-- The `exec` callback of the sign handler: clean up, then answer 500
with the tool's diagnostics on failure, or the success payload with
download/install URLs and output size. `fs` is the filesystem state when
the callback runs (after the external tool has written or failed to
write the output); the returned state is the one in which the response
is sent. -/
def signCallback (env : Env) (job : SignJob) (er : ExecResult) (fs : FS) : Response × FS :=
  let fs2 := signCleanup job fs
  match er.error with
  | some msg =>
    ({ status := 500, success := false,
       error := some "Failed to sign IPA. Please check your certificate and provisioning profile.",
       details := some (if er.stderr = "" then msg else er.stderr) }, fs2)
  | none =>
    ({ status := 200, success := true,
       message := some "IPA signed successfully",
       data := some { fileName := job.outputFileName,
                      downloadUrl := env.domain ++ "/output/" ++ job.outputFileName,
                      installUrl := "itms-services://?action=download-manifest&url=" ++
                        encodeURIComponent (env.domain ++ "/api/manifest/" ++ job.outputFileName),
                      size := if existsSync fs2 job.outputPath then statSize fs2 job.outputPath else 0 } },
     fs2)

/-! ## GET /api/manifest/:filename -/

/-- The manifest template before the `${ipaUrl}` hole (`server.js`
lines 168–181). -/
def manifestPrefix : String :=
  "<?xml version=\"1.0\" encoding=\"UTF-8\"?>\n<!DOCTYPE plist PUBLIC \"-//Apple//DTD PLIST 1.0//EN\" \"http://www.apple.com/DTDs/PropertyList-1.0.dtd\">\n<plist version=\"1.0\">\n<dict>\n  <key>items</key>\n  <array>\n    <dict>\n      <key>assets</key>\n      <array>\n        <dict>\n          <key>kind</key>\n          <string>software-package</string>\n          <key>url</key>\n          <string>"

/-- The manifest template after the `${ipaUrl}` hole (`server.js`
lines 181–198). -/
def manifestSuffix : String :=
  "</string>\n        </dict>\n      </array>\n      <key>metadata</key>\n      <dict>\n        <key>bundle-identifier</key>\n        <string>com.example.app</string>\n        <key>bundle-version</key>\n        <string>1.0</string>\n        <key>kind</key>\n        <string>software</string>\n        <key>title</key>\n        <string>Signed App</string>\n      </dict>\n    </dict>\n  </array>\n</dict>\n</plist>"

/-- The manifest prefix up to (excluding) the `<string>` that opens the
URL value. -/
def manifestHead : String :=
  "<?xml version=\"1.0\" encoding=\"UTF-8\"?>\n<!DOCTYPE plist PUBLIC \"-//Apple//DTD PLIST 1.0//EN\" \"http://www.apple.com/DTDs/PropertyList-1.0.dtd\">\n<plist version=\"1.0\">\n<dict>\n  <key>items</key>\n  <array>\n    <dict>\n      <key>assets</key>\n      <array>\n        <dict>\n          <key>kind</key>\n          <string>software-package</string>\n          <key>url</key>\n          "

/-- The manifest suffix after (excluding) the `</string>` that closes
the URL value. -/
def manifestTail : String :=
  "\n        </dict>\n      </array>\n      <key>metadata</key>\n      <dict>\n        <key>bundle-identifier</key>\n        <string>com.example.app</string>\n        <key>bundle-version</key>\n        <string>1.0</string>\n        <key>kind</key>\n        <string>software</string>\n        <key>title</key>\n        <string>Signed App</string>\n      </dict>\n    </dict>\n  </array>\n</dict>\n</plist>"

/-- The interpolated manifest document. -/
def manifestBody (ipaUrl : String) : String :=
  manifestPrefix ++ ipaUrl ++ manifestSuffix

/-- A response carrying a raw body and a content type. -/
structure ManifestResponse where
  status : Nat
  contentType : String
  body : String
deriving DecidableEq

/-- The `GET /api/manifest/:filename` handler: interpolates the artifact
URL into the plist template and sends it as `application/xml`; it never
consults the filesystem. -/
def manifestHandler (domain filename : String) : ManifestResponse :=
  { status := 200, contentType := "application/xml",
    body := manifestBody (domain ++ "/output/" ++ filename) }

/-! ## GET /api/files and DELETE /api/files/:filename -/

/-- One entry of the output directory as `readdirSync` + `statSync`
see it. -/
structure OutEntry where
  name : String
  size : Nat
  birthtime : Nat
deriving DecidableEq

/-- One element of the `files` array returned by `GET /api/files`. -/
structure FileInfo where
  name : String
  size : Nat
  created : Nat
  downloadUrl : String
deriving DecidableEq

/-- The mapping applied to each kept directory entry. -/
def toFileInfo (domain : String) (e : OutEntry) : FileInfo :=
  { name := e.name, size := e.size, created := e.birthtime,
    downloadUrl := domain ++ "/output/" ++ e.name }

/-- The `GET /api/files` handler: keep the `.ipa` entries of the output
directory, build their info records, and sort by `b.created - a.created`
(creation time descending). -/
def listFiles (domain : String) (entries : List OutEntry) : List FileInfo :=
  (((entries.filter (fun e => e.name.endsWith ".ipa")).map (toFileInfo domain)).mergeSort
    (fun a b => b.created ≤ a.created))

/-- The `DELETE /api/files/:filename` handler: 404 when nothing of that
name exists in the output directory, otherwise unlink it and report
success.  Returns the response and the resulting directory contents. -/
def deleteFile (entries : List OutEntry) (filename : String) : Response × List OutEntry :=
  if entries.any (fun e => e.name = filename) then
    ({ status := 200, success := true, message := some "File deleted successfully" },
     entries.filter (fun e => e.name ≠ filename))
  else
    ({ status := 404, success := false, error := some "File not found" }, entries)

/-! ## Helper lemmas -/

theorem existsFile_eq_false_iff (fs : FS) (p : String) :
    existsFile fs p = false ↔ ∀ f ∈ fs.files, f.path ≠ p := by
  simp [existsFile]

theorem mem_cleanupOne {fs : FS} {q : String} {f : FSFile}
    (h : f ∈ (cleanupOne fs q).files) : f ∈ fs.files := by
  unfold cleanupOne at h
  split at h
  · exact List.mem_of_mem_filter h
  · exact h

theorem cleanupOne_no_file (fs : FS) (q : String) :
    existsFile (cleanupOne fs q) q = false := by
  unfold cleanupOne
  split
  · simp [unlinkFile, existsFile, List.mem_filter]
  · next h =>
    have h' : (existsFile fs q || existsDir fs q) = false := by
      cases hx : existsSync fs q
      · exact hx
      · exact absurd hx h
    exact (Bool.or_eq_false_iff.mp h').1

theorem existsFile_false_cleanupOne {fs : FS} {q p : String}
    (h : existsFile fs p = false) : existsFile (cleanupOne fs q) p = false := by
  rw [existsFile_eq_false_iff] at h ⊢
  exact fun f hf => h f (mem_cleanupOne hf)

theorem mem_rmRecursive {fs : FS} {d : String} {f : FSFile}
    (h : f ∈ (rmRecursive fs d).files) : f ∈ fs.files :=
  List.mem_of_mem_filter h

theorem existsFile_false_rm {fs : FS} {d p : String}
    (h : existsFile fs p = false) : existsFile (rmRecursive fs d) p = false := by
  rw [existsFile_eq_false_iff] at h ⊢
  exact fun f hf => h f (mem_rmRecursive hf)

theorem rmRecursive_no_target (fs : FS) (d : String) :
    existsSync (rmRecursive fs d) d = false := by
  simp only [rmRecursive, existsSync, existsFile, existsDir]
  simp [List.mem_filter]
  exact ⟨fun x _ h _ => h, fun x _ h _ => h⟩

theorem signCleanup_unfold (job : SignJob) (fs : FS) :
    signCleanup job fs =
      (if existsSync (cleanupOne (cleanupOne (cleanupOne fs job.ipaPath) job.certPath) job.provPath)
            (dirname job.ipaPath) then
        rmRecursive (cleanupOne (cleanupOne (cleanupOne fs job.ipaPath) job.certPath) job.provPath)
          (dirname job.ipaPath)
      else cleanupOne (cleanupOne (cleanupOne fs job.ipaPath) job.certPath) job.provPath) := rfl

theorem signCallback_snd (env : Env) (job : SignJob) (er : ExecResult) (fs : FS) :
    (signCallback env job er fs).2 = signCleanup job fs := by
  unfold signCallback
  cases er.error <;> rfl

theorem signCleanup_spec (job : SignJob) (fs : FS) :
    existsFile (signCleanup job fs) job.ipaPath = false ∧
    existsFile (signCleanup job fs) job.certPath = false ∧
    existsFile (signCleanup job fs) job.provPath = false ∧
    existsSync (signCleanup job fs) (dirname job.ipaPath) = false := by
  have hi1 : existsFile (cleanupOne (cleanupOne (cleanupOne fs job.ipaPath) job.certPath)
      job.provPath) job.ipaPath = false :=
    existsFile_false_cleanupOne (existsFile_false_cleanupOne (cleanupOne_no_file fs job.ipaPath))
  have hc1 : existsFile (cleanupOne (cleanupOne (cleanupOne fs job.ipaPath) job.certPath)
      job.provPath) job.certPath = false :=
    existsFile_false_cleanupOne (cleanupOne_no_file (cleanupOne fs job.ipaPath) job.certPath)
  have hp1 : existsFile (cleanupOne (cleanupOne (cleanupOne fs job.ipaPath) job.certPath)
      job.provPath) job.provPath = false :=
    cleanupOne_no_file (cleanupOne (cleanupOne fs job.ipaPath) job.certPath) job.provPath
  rw [signCleanup_unfold]
  split
  · exact ⟨existsFile_false_rm hi1, existsFile_false_rm hc1, existsFile_false_rm hp1,
      rmRecursive_no_target _ _⟩
  · next h => exact ⟨hi1, hc1, hp1, Bool.not_eq_true _ ▸ (Bool.of_not_eq_true h)⟩

/-! ## Claims -/

/-- C1: For every sign request with all three files present, the command
line passed to the external tool is
`<tool> -k "<cert path>"`, then ` -p "<password>"` iff a non-empty
password was supplied, then ` -m "<profile path>"`, then
` -b "<bundleId>"` iff a non-empty bundleId was supplied, then
` -o "<output path>" "<input package path>"`, in exactly this order. -/
theorem sign_cmd_flag_order (env : Env) (now : Nat) (fi fc fp : UploadedFile)
    (pw bid : Option String) :
    ∃ job : SignJob,
      signPrepare env ⟨some ⟨some fi, some fc, some fp⟩, pw, bid⟩ now = Except.ok job ∧
      job.cmd = env.zsignPath ++ " -k \"" ++ fc.path ++ "\"" ++
        (if jsTruthy pw then " -p \"" ++ pw.getD "" ++ "\"" else "") ++
        " -m \"" ++ fp.path ++ "\"" ++
        (if jsTruthy bid then " -b \"" ++ bid.getD "" ++ "\"" else "") ++
        " -o \"" ++ job.outputPath ++ "\" \"" ++ fi.path ++ "\"" := by
  refine ⟨_, rfl, ?_⟩
  simp only [signPrepare, buildZsignCmd]
  split <;> split <;>
    (apply String.ext
     simp only [String.append_empty, String.data_append, List.append_assoc])

/-- C2: For every POST /api/sign request in which at least one of the
three required file kinds is absent after parsing, the handler answers
the 400 missing-required-files error, and (the result being
`Except.error`) no command for the external tool is ever built or run. -/
theorem sign_missing_files_400 (env : Env) (req : SignRequest) (now : Nat)
    (h : req.files = none ∨ ∃ fls, req.files = some fls ∧
      (fls.ipa = none ∨ fls.certificate = none ∨ fls.provision = none)) :
    signPrepare env req now = Except.error missingFilesResp ∧
    missingFilesResp.status = 400 ∧ missingFilesResp.success = false ∧
    missingFilesResp.error =
      some "Missing required files. Please upload IPA, P12 certificate, and provisioning profile." := by
  refine ⟨?_, rfl, rfl, rfl⟩
  rcases h with h | ⟨fls, hf, hmiss⟩
  · simp [signPrepare, h]
  · rcases fls with ⟨i, c, p⟩
    rcases i with _ | fi <;> rcases c with _ | fc <;> rcases p with _ | fp <;>
      simp_all [signPrepare]

/-- Witness for C2 at a concrete request missing the certificate. -/
theorem sign_missing_files_400_witness :
    signPrepare ⟨"http://localhost:3000", "zsign", "/srv/output"⟩
      ⟨some ⟨some ⟨"a.ipa", "/up/s1/a.ipa"⟩, none,
        some ⟨"p.mobileprovision", "/up/s1/p.mobileprovision"⟩⟩, none, none⟩ 5 =
      Except.error missingFilesResp :=
  (sign_missing_files_400 ⟨"http://localhost:3000", "zsign", "/srv/output"⟩
    ⟨some ⟨some ⟨"a.ipa", "/up/s1/a.ipa"⟩, none,
      some ⟨"p.mobileprovision", "/up/s1/p.mobileprovision"⟩⟩, none, none⟩ 5
    (Or.inr ⟨_, rfl, Or.inr (Or.inl rfl)⟩)).1

/-- C3: For every sign request that reaches external-tool invocation,
whatever the tool's outcome `er`, by the time the response is produced
all three uploaded input files have been deleted and the session's
temporary directory (the directory of the uploaded ipa) no longer
exists. -/
theorem sign_cleanup_always (env : Env) (job : SignJob) (er : ExecResult) (fs : FS) :
    existsFile (signCallback env job er fs).2 job.ipaPath = false ∧
    existsFile (signCallback env job er fs).2 job.certPath = false ∧
    existsFile (signCallback env job er fs).2 job.provPath = false ∧
    existsSync (signCallback env job er fs).2 (dirname job.ipaPath) = false := by
  rw [signCallback_snd]
  exact signCleanup_spec job fs

/-- Unlinking files leaves the set of directories unchanged. -/
theorem cleanupOne_dirs (fs : FS) (q : String) : (cleanupOne fs q).dirs = fs.dirs := by
  unfold cleanupOne
  split <;> rfl

theorem mem_rmRecursive_dirs {fs : FS} {d x : String}
    (h : x ∈ (rmRecursive fs d).dirs) : x ∈ fs.dirs :=
  List.mem_of_mem_filter h

/-- The cleanup block never creates anything: a path absent before it is
still absent after it. -/
theorem existsSync_false_signCleanup (job : SignJob) (fs : FS) (p : String)
    (h : existsSync fs p = false) : existsSync (signCleanup job fs) p = false := by
  have hf : existsFile fs p = false := (Bool.or_eq_false_iff.mp h).1
  have hd : existsDir fs p = false := (Bool.or_eq_false_iff.mp h).2
  have hf1 : existsFile (cleanupOne (cleanupOne (cleanupOne fs job.ipaPath) job.certPath)
      job.provPath) p = false :=
    existsFile_false_cleanupOne (existsFile_false_cleanupOne (existsFile_false_cleanupOne hf))
  have hd1 : existsDir (cleanupOne (cleanupOne (cleanupOne fs job.ipaPath) job.certPath)
      job.provPath) p = false := by
    simpa [existsDir, cleanupOne_dirs] using hd
  rw [signCleanup_unfold]
  split
  · refine Bool.or_eq_false_iff.mpr ⟨existsFile_false_rm hf1, ?_⟩
    rw [existsDir] at hd1 ⊢
    simp only [List.any_eq_false] at hd1 ⊢
    exact fun x hx => hd1 x (mem_rmRecursive_dirs hx)
  · exact Bool.or_eq_false_iff.mpr ⟨hf1, hd1⟩

/-- C5: For every sign request where the external tool exits nonzero
(`er.error = some msg`), the response has status 500, `success := false`,
and carries the tool's diagnostic text verbatim in `details`: the
captured stderr, or the error message when stderr is empty. -/
theorem sign_failure_passthrough (env : Env) (job : SignJob) (er : ExecResult) (fs : FS)
    (msg : String) (h : er.error = some msg) :
    (signCallback env job er fs).1.status = 500 ∧
    (signCallback env job er fs).1.success = false ∧
    (signCallback env job er fs).1.error =
      some "Failed to sign IPA. Please check your certificate and provisioning profile." ∧
    (signCallback env job er fs).1.details =
      some (if er.stderr = "" then msg else er.stderr) := by
  simp [signCallback, h]

/-- Witness for C5: a failing run with nonempty stderr surfaces it. -/
theorem sign_failure_passthrough_witness :
    (⟨some "exit 1", "", "boom"⟩ : ExecResult).error = some "exit 1" ∧
    (signCallback ⟨"http://localhost:3000", "zsign", "/srv/output"⟩
        ⟨"zsign -k x", "a_signed_1.ipa", "/srv/output/a_signed_1.ipa", "/up/s1/a.ipa",
          "/up/s1/c.p12", "/up/s1/p.mobileprovision"⟩
        ⟨some "exit 1", "", "boom"⟩ ⟨[], []⟩).1.status = 500 ∧
    (signCallback ⟨"http://localhost:3000", "zsign", "/srv/output"⟩
        ⟨"zsign -k x", "a_signed_1.ipa", "/srv/output/a_signed_1.ipa", "/up/s1/a.ipa",
          "/up/s1/c.p12", "/up/s1/p.mobileprovision"⟩
        ⟨some "exit 1", "", "boom"⟩ ⟨[], []⟩).1.details =
      some (if ("boom" : String) = "" then "exit 1" else "boom") :=
  ⟨rfl,
   (sign_failure_passthrough ⟨"http://localhost:3000", "zsign", "/srv/output"⟩
      ⟨"zsign -k x", "a_signed_1.ipa", "/srv/output/a_signed_1.ipa", "/up/s1/a.ipa",
        "/up/s1/c.p12", "/up/s1/p.mobileprovision"⟩
      ⟨some "exit 1", "", "boom"⟩ ⟨[], []⟩ "exit 1" rfl).1,
   (sign_failure_passthrough ⟨"http://localhost:3000", "zsign", "/srv/output"⟩
      ⟨"zsign -k x", "a_signed_1.ipa", "/srv/output/a_signed_1.ipa", "/up/s1/a.ipa",
        "/up/s1/c.p12", "/up/s1/p.mobileprovision"⟩
      ⟨some "exit 1", "", "boom"⟩ ⟨[], []⟩ "exit 1" rfl).2.2.2⟩

/-- C10: If the external tool exits zero but nothing exists at the
computed output path, the handler still answers success 200 with
"IPA signed successfully" and reports `data.size = 0`; the missing
artifact is not signalled as an error. -/
theorem sign_success_no_output (env : Env) (job : SignJob) (er : ExecResult) (fs : FS)
    (h : er.error = none) (hout : existsSync fs job.outputPath = false) :
    (signCallback env job er fs).1.status = 200 ∧
    (signCallback env job er fs).1.success = true ∧
    (signCallback env job er fs).1.message = some "IPA signed successfully" ∧
    (signCallback env job er fs).1.error = none ∧
    ∃ d, (signCallback env job er fs).1.data = some d ∧ d.size = 0 := by
  have h2 : existsSync (signCleanup job fs) job.outputPath = false :=
    existsSync_false_signCleanup job fs job.outputPath hout
  simp [signCallback, h, h2]

/-- Witness for C10: successful exec over an empty filesystem. -/
theorem sign_success_no_output_witness :
    (⟨none, "", ""⟩ : ExecResult).error = none ∧
    existsSync ⟨[], []⟩ (SignJob.outputPath ⟨"zsign -k x", "a_signed_1.ipa",
      "/srv/output/a_signed_1.ipa", "/up/s1/a.ipa", "/up/s1/c.p12",
      "/up/s1/p.mobileprovision"⟩) = false ∧
    ∃ d, (signCallback ⟨"http://localhost:3000", "zsign", "/srv/output"⟩
        ⟨"zsign -k x", "a_signed_1.ipa", "/srv/output/a_signed_1.ipa", "/up/s1/a.ipa",
          "/up/s1/c.p12", "/up/s1/p.mobileprovision"⟩
        ⟨none, "", ""⟩ ⟨[], []⟩).1.data = some d ∧ d.size = 0 :=
  ⟨rfl, rfl,
   (sign_success_no_output ⟨"http://localhost:3000", "zsign", "/srv/output"⟩
      ⟨"zsign -k x", "a_signed_1.ipa", "/srv/output/a_signed_1.ipa", "/up/s1/a.ipa",
        "/up/s1/c.p12", "/up/s1/p.mobileprovision"⟩
      ⟨none, "", ""⟩ ⟨[], []⟩ rfl rfl).2.2.2.2⟩

set_option maxRecDepth 8000 in
/-- C6: For every filename F, GET /api/manifest/F answers with the XML
media type, and its body is the plist template with exactly one
`software-package` occurrence, located in `manifestHead` directly before
the interpolated URL slot, whose value is the configured domain joined
with `/output/F`. -/
theorem manifest_single_asset (domain f : String) :
    (manifestHandler domain f).contentType = "application/xml" ∧
    (manifestHandler domain f).body =
      manifestHead ++ "<string>" ++ (domain ++ "/output/" ++ f) ++ "</string>" ++ manifestTail ∧
    countSub "software-package".data manifestHead.data = 1 ∧
    countSub "software-package".data manifestTail.data = 0 ∧
    ∃ q, manifestHead = q ++
      "<key>kind</key>\n          <string>software-package</string>\n          <key>url</key>\n          " := by
  refine ⟨rfl, ?_, by decide, by decide,
    ⟨"<?xml version=\"1.0\" encoding=\"UTF-8\"?>\n<!DOCTYPE plist PUBLIC \"-//Apple//DTD PLIST 1.0//EN\" \"http://www.apple.com/DTDs/PropertyList-1.0.dtd\">\n<plist version=\"1.0\">\n<dict>\n  <key>items</key>\n  <array>\n    <dict>\n      <key>assets</key>\n      <array>\n        <dict>\n          ",
     by decide⟩⟩
  show manifestBody (domain ++ "/output/" ++ f) = _
  have h1 : manifestPrefix = manifestHead ++ "<string>" := by decide
  have h2 : manifestSuffix = "</string>" ++ manifestTail := by decide
  rw [manifestBody, h1, h2]
  apply String.ext
  simp only [String.data_append, List.append_assoc]

/-- C7 counterexample: with an empty output directory, the filename
`nope_signed_1.ipa` names no existing artifact, yet the manifest request
for it answers 200 (the XML manifest), not 404. -/
theorem manifest_no_existence_check :
    listFiles "http://localhost:3000" [] = [] ∧
    (manifestHandler "http://localhost:3000" "nope_signed_1.ipa").status = 200 ∧
    (manifestHandler "http://localhost:3000" "nope_signed_1.ipa").status ≠ 404 :=
  ⟨by simp [listFiles], rfl, fun hc => by simp [manifestHandler] at hc⟩

/-- C7 amended: GET /api/manifest/:filename answers 200 with the XML
manifest for every filename, without consulting the filesystem; no 404
is ever produced by this route. -/
theorem manifest_always_200 (domain f : String) :
    (manifestHandler domain f).status = 200 ∧
    (manifestHandler domain f).contentType = "application/xml" ∧
    (manifestHandler domain f).body = manifestBody (domain ++ "/output/" ++ f) :=
  ⟨rfl, rfl, rfl⟩

/-- C8: GET /api/files returns exactly the `.ipa`-suffixed entries of
the output directory — each carrying its name, size, creation time and
download URL — ordered by creation time descending. -/
theorem files_listing_spec (domain : String) (entries : List OutEntry) :
    (listFiles domain entries).Perm
      ((entries.filter (fun e => e.name.endsWith ".ipa")).map (toFileInfo domain)) ∧
    List.Pairwise (fun a b : FileInfo => b.created ≤ a.created) (listFiles domain entries) := by
  constructor
  · exact List.mergeSort_perm _ _
  · unfold listFiles
    refine List.Pairwise.imp (fun h => of_decide_eq_true h)
      (@List.sorted_mergeSort FileInfo (fun a b => b.created ≤ a.created) ?_ ?_
        ((entries.filter (fun e => e.name.endsWith ".ipa")).map (toFileInfo domain)))
    · exact fun a b c hab hbc =>
        decide_eq_true (Nat.le_trans (of_decide_eq_true hbc) (of_decide_eq_true hab))
    · intro a b
      rcases Nat.le_total b.created a.created with h | h
      · exact Bool.or_eq_true_iff.mpr (Or.inl (decide_eq_true h))
      · exact Bool.or_eq_true_iff.mpr (Or.inr (decide_eq_true h))

/-- C9: DELETE /api/files/:filename answers 404 when no file of that
name is in the output directory; when one is, it removes the file and
reports success, and the subsequent listing no longer contains it. -/
theorem delete_file_spec (domain : String) (entries : List OutEntry) (filename : String) :
    (entries.any (fun e => e.name = filename) = false →
      (deleteFile entries filename).1.status = 404 ∧
      (deleteFile entries filename).1.success = false ∧
      (deleteFile entries filename).1.error = some "File not found" ∧
      (deleteFile entries filename).2 = entries) ∧
    (entries.any (fun e => e.name = filename) = true →
      (deleteFile entries filename).1.status = 200 ∧
      (deleteFile entries filename).1.success = true ∧
      (deleteFile entries filename).1.message = some "File deleted successfully" ∧
      (deleteFile entries filename).2.any (fun e => e.name = filename) = false ∧
      ∀ x ∈ listFiles domain (deleteFile entries filename).2, x.name ≠ filename) := by
  constructor
  · intro h
    simp [deleteFile, h]
  · intro h
    refine ⟨by simp [deleteFile, h], by simp [deleteFile, h], by simp [deleteFile, h], ?_, ?_⟩
    · simp [deleteFile, h, List.any_eq_false, List.mem_filter]
    · intro x hx
      simp only [deleteFile, h, if_true, listFiles, List.mem_mergeSort, List.mem_map,
        List.mem_filter] at hx
      obtain ⟨e, ⟨⟨hmem, hne⟩, _⟩, rfl⟩ := hx
      simpa [toFileInfo] using hne

/-- Witness for C9: deleting from an empty directory gives 404; deleting
an existing file succeeds. -/
theorem delete_file_spec_witness :
    (([] : List OutEntry).any (fun e => e.name = "a.ipa") = false →
      (deleteFile [] "a.ipa").1.status = 404) ∧
    (([⟨"b.ipa", 7, 3⟩] : List OutEntry).any (fun e => e.name = "b.ipa") = true →
      (deleteFile [⟨"b.ipa", 7, 3⟩] "b.ipa").1.success = true) ∧
    (deleteFile [] "a.ipa").1.status = 404 ∧
    (deleteFile [⟨"b.ipa", 7, 3⟩] "b.ipa").1.success = true :=
  ⟨fun h => ((delete_file_spec "http://localhost:3000" [] "a.ipa").1 h).1,
   fun h => ((delete_file_spec "http://localhost:3000" [⟨"b.ipa", 7, 3⟩] "b.ipa").2 h).2.1,
   ((delete_file_spec "http://localhost:3000" [] "a.ipa").1 (by decide)).1,
   ((delete_file_spec "http://localhost:3000" [⟨"b.ipa", 7, 3⟩] "b.ipa").2 (by decide)).2.1⟩

/-- A `find?` hit that the filter keeps is still the first hit after
filtering. -/
theorem find?_filter_of_find? {α : Type} (p q : α → Bool) (l : List α) (a : α)
    (h : l.find? p = some a) (hq : q a = true) : (l.filter q).find? p = some a := by
  induction l with
  | nil => simp at h
  | cons x xs ih =>
    rw [List.find?_cons] at h
    cases hpx : p x
    · rw [hpx] at h
      rw [List.filter_cons]
      cases hqx : q x
      · simp only [hqx, Bool.false_eq_true, if_false]
        exact ih h
      · simp only [hqx, if_true]
        rw [List.find?_cons, hpx]
        exact ih h
    · rw [hpx] at h
      have hxa : x = a := Option.some.inj h
      subst hxa
      rw [List.filter_cons]
      simp only [hq, if_true]
      rw [List.find?_cons, hpx]

theorem cleanupOne_find? {fs : FS} {q : String} {pr : FSFile → Bool} {a : FSFile}
    (h : fs.files.find? pr = some a) (hne : a.path ≠ q) :
    (cleanupOne fs q).files.find? pr = some a := by
  unfold cleanupOne
  split
  · exact find?_filter_of_find? pr _ fs.files a h (decide_eq_true hne)
  · exact h

/-- The file found at a path untouched by the cleanup block is still the
file found there afterwards. -/
theorem signCleanup_find? (job : SignJob) (fs : FS) {pr : FSFile → Bool} {a : FSFile}
    (h : fs.files.find? pr = some a)
    (h1 : a.path ≠ job.ipaPath) (h2 : a.path ≠ job.certPath) (h3 : a.path ≠ job.provPath)
    (h4 : a.path ≠ dirname job.ipaPath)
    (h5 : isUnder (dirname job.ipaPath) a.path = false) :
    (signCleanup job fs).files.find? pr = some a := by
  rw [signCleanup_unfold]
  have hA := cleanupOne_find? (cleanupOne_find? (cleanupOne_find? h h1) h2) h3
  split
  · exact find?_filter_of_find? pr _ _ a hA (by simp [h4, h5])
  · exact hA

/-- `path.parse(N ++ ".ipa").name = N` for a nonempty slash-free `N`. -/
theorem parseName_append_ipa (N : String) (h0 : N ≠ "") (hs : ∀ c ∈ N.data, c ≠ '/') :
    parseName (N ++ ".ipa") = N := by
  have hdata : (N ++ ".ipa").data = N.data ++ ['.', 'i', 'p', 'a'] := by
    rw [String.data_append]
  have hall : ∀ c ∈ (N ++ ".ipa").data.reverse, decide (c ≠ '/') = true := by
    intro c hc
    rw [hdata, List.mem_reverse] at hc
    rcases List.mem_append.mp hc with hcl | hcr
    · exact decide_eq_true (hs c hcl)
    · fin_cases hcr <;> decide
  have hb : basename (N ++ ".ipa") = N ++ ".ipa" := by
    unfold basename
    rw [List.takeWhile_eq_self_iff.mpr hall, List.reverse_reverse]
  have h0' : N.data ≠ [] := by
    intro hnil
    apply h0
    cases N with
    | mk l =>
      cases hnil
      rfl
  obtain ⟨a, t, ht⟩ : ∃ a t, N.data.reverse = a :: t := by
    cases hrev : N.data.reverse with
    | nil => exact absurd (List.reverse_eq_nil_iff.mp hrev) h0'
    | cons a t => exact ⟨a, t, rfl⟩
  have hdrop : ((N ++ ".ipa").data.reverse).dropWhile (fun c => c ≠ '.') =
      '.' :: N.data.reverse := by
    rw [hdata, List.reverse_append]
    show List.dropWhile _ ('a' :: 'p' :: 'i' :: '.' :: N.data.reverse) = _
    rw [List.dropWhile_cons, List.dropWhile_cons, List.dropWhile_cons, List.dropWhile_cons]
    simp
  unfold parseName
  rw [hb, hdrop, ht]
  show String.mk (a :: t).reverse = N
  rw [← ht, List.reverse_reverse]

/-- C4: For every successful sign of an input package named `N.ipa`
whose output file the tool produced (`entry` is the file found at the
computed output path, untouched by the input cleanup), the success
response reports `fileName = N ++ "_signed_" ++ <timestamp> ++ ".ipa"`,
`size` equal to that output file's byte length, and an `installUrl`
containing the URL-encoded reference to `/api/manifest/<fileName>`. -/
theorem sign_success_payload (env : Env) (now : Nat) (fi fc fp : UploadedFile)
    (pw bid : Option String) (er : ExecResult) (fs : FS) (job : SignJob)
    (N : String) (entry : FSFile)
    (hjob : signPrepare env ⟨some ⟨some fi, some fc, some fp⟩, pw, bid⟩ now = Except.ok job)
    (hname : fi.originalname = N ++ ".ipa") (h0 : N ≠ "") (hs : ∀ c ∈ N.data, c ≠ '/')
    (hok : er.error = none)
    (hfind : fs.files.find? (fun f => f.path = job.outputPath) = some entry)
    (hni : job.outputPath ≠ job.ipaPath) (hnc : job.outputPath ≠ job.certPath)
    (hnp : job.outputPath ≠ job.provPath) (hnd : job.outputPath ≠ dirname job.ipaPath)
    (hnu : isUnder (dirname job.ipaPath) job.outputPath = false) :
    ∃ d : SignData, (signCallback env job er fs).1.data = some d ∧
      (signCallback env job er fs).1.success = true ∧
      d.fileName = N ++ "_signed_" ++ toString now ++ ".ipa" ∧
      d.size = entry.size ∧
      ∃ pre, d.installUrl = pre ++ encodeURIComponent (env.domain ++ "/api/manifest/" ++ d.fileName) := by
  have hpath : entry.path = job.outputPath := by
    have h := List.find?_some hfind
    simpa using h
  have hfound : (signCleanup job fs).files.find? (fun f => f.path = job.outputPath) =
      some entry :=
    signCleanup_find? job fs hfind (hpath ▸ hni.symm ∘ Eq.symm) (hpath ▸ hnc.symm ∘ Eq.symm)
      (hpath ▸ hnp.symm ∘ Eq.symm) (hpath ▸ hnd.symm ∘ Eq.symm) (hpath ▸ hnu)
  have hmem : entry ∈ (signCleanup job fs).files := List.mem_of_find?_eq_some hfound
  have hex : existsSync (signCleanup job fs) job.outputPath = true := by
    refine Bool.or_eq_true_iff.mpr (Or.inl ?_)
    exact List.any_eq_true.mpr ⟨entry, hmem, decide_eq_true hpath⟩
  have hsz : statSize (signCleanup job fs) job.outputPath = entry.size := by
    rw [statSize, hfound]
    rfl
  have hfn : job.outputFileName = N ++ "_signed_" ++ toString now ++ ".ipa" := by
    have hj := hjob
    simp only [signPrepare] at hj
    have := Except.ok.inj hj
    rw [← this, hname, parseName_append_ipa N h0 hs]
  refine ⟨{ fileName := job.outputFileName,
            downloadUrl := env.domain ++ "/output/" ++ job.outputFileName,
            installUrl := "itms-services://?action=download-manifest&url=" ++
              encodeURIComponent (env.domain ++ "/api/manifest/" ++ job.outputFileName),
            size := if existsSync (signCleanup job fs) job.outputPath
              then statSize (signCleanup job fs) job.outputPath else 0 },
    ?_, ?_, ?_, ?_, ?_⟩
  · simp only [signCallback, hok]
  · simp only [signCallback, hok]
  · exact hfn
  · simp only [hex, if_true]
    exact hsz
  · exact ⟨"itms-services://?action=download-manifest&url=", rfl⟩

/-- Witness for C4: signing `MyApp.ipa` at timestamp 123 with a 42-byte
output file produced at the computed output path. -/
theorem sign_success_payload_witness :
    (⟨none, "", ""⟩ : ExecResult).error = none ∧
    ("MyApp" : String) ≠ "" ∧
    ∃ d : SignData,
      (signCallback ⟨"http://localhost:3000", "zsign", "/srv/output"⟩
        ⟨"zsign -k \"/up/s1/cert.p12\" -m \"/up/s1/profile.mobileprovision\" -o \"/srv/output/MyApp_signed_123.ipa\" \"/up/s1/MyApp.ipa\"",
         "MyApp_signed_123.ipa", "/srv/output/MyApp_signed_123.ipa",
         "/up/s1/MyApp.ipa", "/up/s1/cert.p12", "/up/s1/profile.mobileprovision"⟩
        ⟨none, "", ""⟩
        ⟨[⟨"/up/s1/MyApp.ipa", 9⟩, ⟨"/up/s1/cert.p12", 2⟩,
          ⟨"/up/s1/profile.mobileprovision", 3⟩,
          ⟨"/srv/output/MyApp_signed_123.ipa", 42⟩], ["/up/s1"]⟩).1.data = some d ∧
      (signCallback ⟨"http://localhost:3000", "zsign", "/srv/output"⟩
        ⟨"zsign -k \"/up/s1/cert.p12\" -m \"/up/s1/profile.mobileprovision\" -o \"/srv/output/MyApp_signed_123.ipa\" \"/up/s1/MyApp.ipa\"",
         "MyApp_signed_123.ipa", "/srv/output/MyApp_signed_123.ipa",
         "/up/s1/MyApp.ipa", "/up/s1/cert.p12", "/up/s1/profile.mobileprovision"⟩
        ⟨none, "", ""⟩
        ⟨[⟨"/up/s1/MyApp.ipa", 9⟩, ⟨"/up/s1/cert.p12", 2⟩,
          ⟨"/up/s1/profile.mobileprovision", 3⟩,
          ⟨"/srv/output/MyApp_signed_123.ipa", 42⟩], ["/up/s1"]⟩).1.success = true ∧
      d.fileName = "MyApp" ++ "_signed_" ++ toString (123 : Nat) ++ ".ipa" ∧
      d.size = (⟨"/srv/output/MyApp_signed_123.ipa", 42⟩ : FSFile).size ∧
      ∃ pre, d.installUrl =
        pre ++ encodeURIComponent ("http://localhost:3000" ++ "/api/manifest/" ++ d.fileName) :=
  ⟨rfl, by decide,
   sign_success_payload ⟨"http://localhost:3000", "zsign", "/srv/output"⟩ 123
     ⟨"MyApp.ipa", "/up/s1/MyApp.ipa"⟩ ⟨"cert.p12", "/up/s1/cert.p12"⟩
     ⟨"profile.mobileprovision", "/up/s1/profile.mobileprovision"⟩ none none
     ⟨none, "", ""⟩
     ⟨[⟨"/up/s1/MyApp.ipa", 9⟩, ⟨"/up/s1/cert.p12", 2⟩,
       ⟨"/up/s1/profile.mobileprovision", 3⟩,
       ⟨"/srv/output/MyApp_signed_123.ipa", 42⟩], ["/up/s1"]⟩
     ⟨"zsign -k \"/up/s1/cert.p12\" -m \"/up/s1/profile.mobileprovision\" -o \"/srv/output/MyApp_signed_123.ipa\" \"/up/s1/MyApp.ipa\"",
      "MyApp_signed_123.ipa", "/srv/output/MyApp_signed_123.ipa",
      "/up/s1/MyApp.ipa", "/up/s1/cert.p12", "/up/s1/profile.mobileprovision"⟩
     "MyApp" ⟨"/srv/output/MyApp_signed_123.ipa", 42⟩
     rfl rfl (by decide) (by decide) rfl (by decide)
     (by decide) (by decide) (by decide) (by decide) (by decide)⟩

end IpaResign
